import Mathlib

/-!
A verification development for the `serverstf` polling and websocket core.

The Python sources `serverstf/poll.py`, `serverstf/websocket.py` and
`serverstf/__init__.py` are shallowly embedded below.  External collaborators
(the Redis-backed cache, the A2S query transport, the tag rule engine and the
GeoIP database) are modelled by explicit parameters or, where the behaviour is
fixed by the specification, by definitions whose doc comment says so.
Stateful loops become functions over explicit lists of inputs together with
traces of the observable operations they perform.
-/

namespace Serverstf

/-- `serverstf.cache.Address` (external collaborator): an immutable value
`{ip, port}` with equality by value.  The IP is kept as its string rendering,
which is all `poll.py` ever uses (`str(address.ip)`). -/
structure Address where
  ip : String
  port : Nat
deriving DecidableEq, Repr

/-- Render an address as `ip:port`, as used in `PollError` messages. -/
def Address.render (a : Address) : String :=
  a.ip ++ ":" ++ toString a.port

/-- `serverstf.ExitStatus` from `serverstf/__init__.py`: possible exit
statuses for `serverstf.main`. -/
inductive ExitStatus where
  | OK
  | FATAL_ERROR
  | UNEXPECTED_ERROR
deriving DecidableEq, Repr

/-- The numeric value of each exit status (`OK = 0`, `FATAL_ERROR = 1`,
`UNEXPECTED_ERROR = 2` in `serverstf/__init__.py`). -/
def ExitStatus.toNat : ExitStatus → Nat
  | .OK => 0
  | .FATAL_ERROR => 1
  | .UNEXPECTED_ERROR => 2

namespace Poll

/-- One entry of the A2S players sub-query response
(`players["players"]` in `poll.py`): a name, a score and a connection
duration in seconds. -/
structure PlayerEntry where
  name : String
  score : Int
  duration : Nat
deriving DecidableEq, Repr

/-- The fields of the A2S info sub-query response that `poll.py` reads. -/
structure Info where
  player_count : Nat
  max_players : Nat
  bot_count : Nat
  server_name : String
  map : String
  app_id : Nat
deriving DecidableEq, Repr

/-- The A2S players sub-query response: a list of player entries. -/
structure PlayersQuery where
  players : List PlayerEntry
deriving DecidableEq, Repr

/-- The A2S rules sub-query response; `poll.py` only passes it through to the
tagger, so it is modelled as an opaque association list. -/
structure Rules where
  entries : List (String × String)
deriving DecidableEq, Repr

/-- `datetime.timedelta(seconds=...)`: a time-span, modelled by its whole
number of seconds. -/
structure Timedelta where
  seconds : Nat
deriving DecidableEq, Repr

/-- `serverstf.cache.Players` (external collaborator): the players portion of
a cached status. -/
structure Players where
  current : Nat
  max_ : Nat
  bots : Nat
  scores : List (String × Int × Timedelta)
deriving DecidableEq, Repr

/-- The result of the GeoIP city lookup, reduced to the three fields
`poll.py` reads.  Latitude and longitude are opaque integers here: the code
only copies them. -/
structure Location where
  country : String
  latitude : Int
  longitude : Int
deriving DecidableEq, Repr

/-- `serverstf.cache.Status` (external collaborator): one fully assembled
snapshot of a server's state, exactly the keyword arguments `poll` passes. -/
structure Status where
  address : Address
  interest : Option Nat
  name : String
  map_ : String
  application_id : Nat
  players : Players
  country : String
  latitude : Int
  longitude : Int
  tags : List String
deriving DecidableEq, Repr

/-- The three exception classes `_query_server` translates into `PollError`:
`valve.source.a2s.NoResponseError`, `NotImplementedError` (compressed
fragments) and `valve.source.messages.BrokenMessageError`. -/
inductive QueryError where
  | noResponse
  | notImplemented
  | brokenMessage
deriving DecidableEq, Repr

/-- The failure taxonomy of `PollError`:  unreachable (timeout), unsupported
(compressed fragments) and broken response. -/
inductive PollErrorKind where
  | unreachable
  | unsupported
  | brokenResponse
deriving DecidableEq, Repr

/-- `PollError` from `poll.py`, instrumented with which `except` branch of
`_query_server` raised it alongside the formatted message. -/
structure PollError where
  kind : PollErrorKind
  message : String
deriving DecidableEq, Repr

/-- The three kinds of A2S sub-query issued by `_query_server`. -/
inductive SubQueryKind where
  | info
  | players
  | rules
deriving DecidableEq, Repr

/-- One A2S sub-query as issued on the wire: which call, against which
address, with which timeout. `ServerQuerier` is constructed with
`timeout=5` in `_query_server`. -/
structure SubQuery where
  kind : SubQueryKind
  address : Address
  timeout : Nat
deriving DecidableEq, Repr

/-- The raw server-query transport (external collaborator): the three
independently failable blocking calls of `valve.source.a2s.ServerQuerier`. -/
structure Transport where
  get_info : Address → Except QueryError Info
  get_players : Address → Except QueryError PlayersQuery
  get_rules : Address → Except QueryError Rules

/-- The `except` clauses of `_query_server`: how each transport exception is
converted into a `PollError` for address `a`. -/
def pollErrorOf (e : QueryError) (a : Address) : PollError :=
  match e with
  | .noResponse =>
      ⟨.unreachable, "Timed out waiting for response from " ++ a.render⟩
  | .notImplemented =>
      ⟨.unsupported, "Compressed fragments; could not poll " ++ a.render⟩
  | .brokenMessage =>
      ⟨.brokenResponse, "Seemingly broken response from " ++ a.render⟩

/-- `_query_server` from `poll.py`.  Python evaluates
`query.get_info(), query.get_players(), query.get_rules()` left to right and
the first exception aborts the tuple, so later calls are not issued.  The
first component of the result is the trace of sub-queries actually issued
(each against the given address with the constructed timeout of 5). -/
def _query_server (t : Transport) (a : Address) :
    List SubQuery × Except PollError (Info × PlayersQuery × Rules) :=
  match t.get_info a with
  | .error e => ([⟨.info, a, 5⟩], .error (pollErrorOf e a))
  | .ok info =>
    match t.get_players a with
    | .error e => ([⟨.info, a, 5⟩, ⟨.players, a, 5⟩], .error (pollErrorOf e a))
    | .ok players =>
      match t.get_rules a with
      | .error e =>
          ([⟨.info, a, 5⟩, ⟨.players, a, 5⟩, ⟨.rules, a, 5⟩],
           .error (pollErrorOf e a))
      | .ok rules =>
          ([⟨.info, a, 5⟩, ⟨.players, a, 5⟩, ⟨.rules, a, 5⟩],
           .ok (info, players, rules))

/-- The score-building loop of `poll`: for each entry of the players
sub-query, if the name is non-empty (`if entry["name"]:`) append
`(name, score, timedelta(seconds=duration))`. -/
def scoresOf : List PlayerEntry → List (String × Int × Timedelta)
  | [] => []
  | e :: rest =>
    if e.name = "" then scoresOf rest
    else (e.name, e.score, ⟨e.duration⟩) :: scoresOf rest

/-- Observable events of one `poll` call: each sub-query issued, the tag
evaluation and the GeoIP lookup, in execution order. -/
inductive PollEvent where
  | subquery (q : SubQuery)
  | tagEval
  | geoLookup (ip : String)
deriving DecidableEq, Repr

/-- `poll` from `poll.py`, instrumented with its event trace.  The tagger
(`serverstf.tags.Tagger.evaluate`, an external pure rule engine) and the
GeoIP reader (`geoip2.database.Reader.city`) are parameters. -/
def poll (tagger : Info → PlayersQuery → Rules → List String)
    (geoip : String → Location) (t : Transport) (a : Address) :
    List PollEvent × Except PollError Status :=
  match _query_server t a with
  | (qs, .error e) => (qs.map PollEvent.subquery, .error e)
  | (qs, .ok (info, players, rules)) =>
    let tags := tagger info players rules
    let location := geoip a.ip
    let scores := scoresOf players.players
    let players_status : Players :=
      { current := info.player_count
        max_ := info.max_players
        bots := info.bot_count
        scores := scores }
    (qs.map PollEvent.subquery ++ [PollEvent.tagEval, PollEvent.geoLookup a.ip],
     .ok { address := a
           interest := none
           name := info.server_name
           map_ := info.map
           application_id := info.app_id
           players := players_status
           country := location.country
           latitude := location.latitude
           longitude := location.longitude
           tags := tags })

/-- Modelled from the spec: the interest queue of the external cache is a
weighted FIFO; `interesting_context()` is a scoped pop of one address that
fails with the empty-queue signal when no entries remain.  The queue content
is a list, popping takes the front. -/
def interestingContext (q : List Address) : Except Unit (Address × List Address) :=
  match q with
  | [] => .error ()
  | a :: rest => .ok (a, rest)

/-- `_interest_queue_iterator` from `poll.py`: repeatedly pop the interest
queue, yielding each address, and return when `EmptyQueueError` is raised.
Applied to the queue content at the start of the drain, it produces the list
of yielded addresses. -/
def _interest_queue_iterator (q : List Address) : List Address :=
  match h : interestingContext q with
  | .error _ => []
  | .ok (a, rest) => a :: _interest_queue_iterator rest
termination_by q.length
decreasing_by
  cases q with
  | nil => simp [interestingContext] at h
  | cons x xs =>
    simp only [interestingContext, Except.ok.injEq, Prod.mk.injEq] at h
    simp [h.2]

/-- One observable cache operation of the poll scheduler, tagged with the
cache session (connection) it runs on: a pop from the interest queue, the
empty-queue signal ending a drain, or a status write (`cache.set`). -/
inductive CacheOp where
  | pop (session : Nat) (a : Address)
  | popEmpty (session : Nat)
  | set (session : Nat) (s : Status)
deriving DecidableEq, Repr

/-- One pass of the `for address in addresses` body of `_watch` in interest
mode, as the trace of cache operations it performs: each address is popped
from the read session `r`; `poll` (abstracted to `assemble`) is tried; on
`PollError` nothing is written and the loop continues; on success the status
is written on the write session `w`.  The drain ends with the empty-queue
signal on the read session. -/
def watchPassOps (assemble : Address → Except PollError Status)
    (r w : Nat) : List Address → List CacheOp
  | [] => [.popEmpty r]
  | a :: rest =>
    CacheOp.pop r a ::
      (match assemble a with
       | .error _ => watchPassOps assemble r w rest
       | .ok s => CacheOp.set w s :: watchPassOps assemble r w rest)

/-- Finite unrolling of the `while True` loop of `_watch` in interest mode:
one `watchPassOps` drain per outer iteration, over the queue contents the
external producer has supplied for each iteration. -/
def watchRounds (assemble : Address → Except PollError Status)
    (r w : Nat) : List (List Address) → List CacheOp
  | [] => []
  | q :: qs => watchPassOps assemble r w q ++ watchRounds assemble r w qs

/-- The addresses popped (in order) in a scheduler trace. -/
def popsOf : List CacheOp → List Address
  | [] => []
  | .pop _ a :: rest => a :: popsOf rest
  | .popEmpty _ :: rest => popsOf rest
  | .set _ _ :: rest => popsOf rest

/-- The statuses written (in order) in a scheduler trace. -/
def setsOf : List CacheOp → List Status
  | [] => []
  | .set _ s :: rest => s :: setsOf rest
  | .pop _ _ :: rest => setsOf rest
  | .popEmpty _ :: rest => setsOf rest

/-- The session of the read cache in `_poller_main`: the first of the two
separate `Cache.connect` calls. -/
def pollerRSession : Nat := 0

/-- The session of the write cache in `_poller_main`: the second of the two
separate `Cache.connect` calls. -/
def pollerWSession : Nat := 1

/-- Python exceptions that can cross `_poller_main`'s boundary:
`serverstf.FatalError` and the `NameError` raised when a local variable is
referenced before assignment. -/
inductive PyExc where
  | fatalError (message : String)
  | nameError (name : String)
deriving DecidableEq, Repr

/-- Observable events of `_poller_main` before and around `_watch`. -/
inductive PollerEvent where
  | loadGeoip
  | cacheConnect (session : Nat)
  | watchStart (r w : Nat)
  | geoipClose
deriving DecidableEq, Repr

/-- Python `try/finally` semantics: the `finally` block always runs, and an
exception raised inside it replaces the body's outcome (whether that outcome
was a value or an in-flight exception). -/
def tryFinally (body : Except PyExc α) (fin : Except PyExc Unit) :
    Except PyExc α :=
  match fin with
  | .error e => .error e
  | .ok _ => body

/-- `_poller_main` from `poll.py`, as a function of the outcome of opening
the GeoIP database (`geoip2.database.Reader`; `.error` is
`maxminddb.InvalidDatabaseError`).  The body mirrors the
`try/except/else/finally` statement: on `InvalidDatabaseError` the `except`
clause raises `serverstf.FatalError`; the `else` clause opens the two cache
connections and enters `_watch`; the `finally` clause runs `geoip.close()`,
and on the failure path the local `geoip` was never bound, so that call
raises `NameError`.  `_watch` itself never returns; the `.ok` outcome stands
for the loop running, and the trace records what has been entered. -/
def _poller_main (geoipOpen : Except String Unit) :
    Except PyExc Unit × List PollerEvent :=
  let geoipVar : Option Unit := geoipOpen.toOption
  let body : Except PyExc Unit × List PollerEvent :=
    match geoipOpen with
    | .error e => (.error (.fatalError e), [.loadGeoip])
    | .ok _ =>
        (.ok (),
         [.loadGeoip, .cacheConnect pollerRSession,
          .cacheConnect pollerWSession,
          .watchStart pollerRSession pollerWSession])
  let fin : Except PyExc Unit × List PollerEvent :=
    match geoipVar with
    | none => (.error (.nameError "geoip"), [])
    | some _ => (.ok (), [.geoipClose])
  (tryFinally body.1 fin.1, body.2 ++ fin.2)

/-- Modelled from the spec: `serverstf.main` (absent from the given sources)
classifies outcomes three ways — success, fatal setup error
(`serverstf.FatalError`), unexpected error. -/
def mainExitStatusOf : Except PyExc Unit → ExitStatus
  | .ok _ => .OK
  | .error (.fatalError _) => .FATAL_ERROR
  | .error _ => .UNEXPECTED_ERROR

/-- A concrete assembled status, used to exercise the scheduler model. -/
def sampleStatus : Status :=
  { address := ⟨"1.2.3.4", 27015⟩
    interest := none
    name := "srv"
    map_ := "ctf_map"
    application_id := 440
    players := ⟨2, 24, 0, [("Bob", 5, ⟨90⟩)]⟩
    country := "GB"
    latitude := 51
    longitude := 0
    tags := ["ctf"] }

/-- A concrete assembler: fails with a poll error on port 1, succeeds with
`sampleStatus` elsewhere. -/
def sampleAssemble (a : Address) : Except PollError Status :=
  if a.port = 1 then .error ⟨.unreachable, "down"⟩ else .ok sampleStatus

/-- A concrete tagger for witnesses. -/
def sampleTagger (_ : Info) (_ : PlayersQuery) (_ : Rules) : List String :=
  ["ctf"]

/-- A concrete GeoIP lookup for witnesses. -/
def sampleGeoip (_ : String) : Location :=
  ⟨"GB", 51, 0⟩

/-- The info sub-query response of the end-to-end scenario. -/
def bobInfo : Info :=
  { player_count := 1
    max_players := 24
    bot_count := 0
    server_name := "srv"
    map := "ctf_map"
    app_id := 440 }

/-- The players sub-query response of the end-to-end scenario: one player
named Bob with score 5 and duration 90 seconds. -/
def bobPlayers : PlayersQuery :=
  ⟨[⟨"Bob", 5, 90⟩]⟩

/-- The rules sub-query response of the end-to-end scenario. -/
def bobRules : Rules :=
  ⟨[]⟩

/-- A transport whose three sub-queries all succeed with the end-to-end
scenario data. -/
def bobTransport : Transport :=
  { get_info := fun _ => .ok bobInfo
    get_players := fun _ => .ok bobPlayers
    get_rules := fun _ => .ok bobRules }

/-- A transport whose info sub-query times out. -/
def timeoutTransport : Transport :=
  { get_info := fun _ => .error .noResponse
    get_players := fun _ => .ok bobPlayers
    get_rules := fun _ => .ok bobRules }

/-- The address of the end-to-end scenario. -/
def bobAddr : Address := ⟨"1.2.3.4", 27015⟩

end Poll

namespace Websocket

/-- A JSON value, the payload shape of all websocket messages. -/
inductive Json where
  | null
  | bool (b : Bool)
  | num (n : Int)
  | str (s : String)
  | arr (items : List Json)
  | obj (fields : List (String × Json))
deriving Repr, Inhabited

/-- An inbound websocket frame as seen after `json.loads` (the JSON codec is
the external standard library): either text that is not valid JSON, or the
decoded JSON value. -/
inductive RawFrame where
  | invalid (text : String)
  | json (j : Json)
deriving Repr, Inhabited

/-- `MessageError` from `websocket.py`: raised for message validation
failures, carrying a description string. -/
structure MessageError where
  desc : String
deriving DecidableEq, Repr

/-- An outbound message envelope as handed to `Client.send`:
`{"type": type, "entity": entity}`. -/
structure Envelope where
  type_ : String
  entity : Json
deriving Repr, Inhabited

/-- The envelope schema of `Client._dispatch`
(`voluptuous.Schema({Required("type"): str, Required("entity"): lambda x: x})`):
the message must be a dictionary, extra keys are not allowed, `type` must be
present and a string, `entity` must be present (any value).  On success the
type and entity are returned. -/
def envelopeCheck (j : Json) : Except MessageError (String × Json) :=
  match j with
  | .obj fields =>
    if fields.all (fun kv => kv.1 = "type" ∨ kv.1 = "entity") then
      match fields.lookup "type", fields.lookup "entity" with
      | some (Json.str t), some e => .ok (t, e)
      | some _, some _ =>
          .error ⟨"Envelope: expected str for dictionary value @ data[type]"⟩
      | _, _ => .error ⟨"Envelope: required key not provided"⟩
    else .error ⟨"Envelope: extra keys not allowed"⟩
  | _ => .error ⟨"Envelope: expected a dictionary"⟩

/-- The schema inside the `address` converter of `websocket.py`
(`voluptuous.Schema({Required("ip"): str, Required("port"): int})`): the
value must be a dictionary with exactly the keys `ip` (a string) and `port`
(an integer).  Voluptuous validates by iterating the input dictionary's
items, building the output dictionary in that same order, so the validated
dictionary preserves the key order of the input. -/
def addressSchema (j : Json) : Except MessageError (List (String × Json)) :=
  match j with
  | .obj fields =>
    if fields.all
        (fun kv =>
          match kv with
          | ("ip", Json.str _) => true
          | ("port", Json.num _) => true
          | _ => false) then
      if (fields.lookup "ip").isSome ∧ (fields.lookup "port").isSome then
        .ok fields
      else .error ⟨"Entity: required key not provided"⟩
    else .error ⟨"Entity: invalid value or extra keys not allowed"⟩
  | _ => .error ⟨"Entity: expected a dictionary"⟩

/-- `serverstf.cache.Address` as constructed by the `address` converter:
`Address(*validated.values())` passes the validated dictionary's values
positionally, so the first value becomes the `ip` argument and the second
the `port` argument, whatever their keys were. -/
structure CacheAddressArgs where
  ip : Json
  port : Json
deriving Repr, Inhabited

/-- `address` from `websocket.py`: validate the value against the ip/port
schema, then build `serverstf.cache.Address` from the validated
dictionary's values in dictionary (that is, input key) order. -/
def address (value : Json) : Except MessageError CacheAddressArgs :=
  match addressSchema value with
  | .error e => .error e
  | .ok validated =>
    match validated.map Prod.snd with
    | [v0, v1] => .ok ⟨v0, v1⟩
    | _ => .error ⟨"Entity: required key not provided"⟩

/-- `Client._handle_subscribe` behind its `@validate(address)` decorator:
the entity is validated by the `address` converter (raising `MessageError`
on `voluptuous.Invalid`); the wrapped body only logs. -/
def _handle_subscribe (entity : Json) : Except MessageError Unit :=
  match address entity with
  | .error e => .error e
  | .ok _ => .ok ()

/-- `Client._dispatch` from `websocket.py`: decode the message as JSON
(raising `MessageError` for invalid JSON), validate the envelope, look up a
`_handle_<type>` coroutine method (only `_handle_subscribe` exists) and
invoke it on the entity. -/
def _dispatch (f : RawFrame) : Except MessageError Unit :=
  match f with
  | .invalid text => .error ⟨"JSON: " ++ text⟩
  | .json j =>
    match envelopeCheck j with
    | .error e => .error e
    | .ok (t, entity) =>
      if t = "subscribe" then _handle_subscribe entity
      else .error ⟨"Unknown message type: " ++ t⟩

/-- The outcome of dispatching one frame, as `Client._read` distinguishes
them: success, a raised `MessageError`, or any other raised exception. -/
inductive DispatchOutcome where
  | ok
  | msgError (desc : String)
  | exc (desc : String)
deriving DecidableEq, Repr

/-- The dispatch outcome of the concrete `Client._dispatch` (which raises
only `MessageError`). -/
def dispatchOutcomeOf (f : RawFrame) : DispatchOutcome :=
  match _dispatch f with
  | .ok _ => .ok
  | .error e => .msgError e.desc

/-- One item delivered by `websocket.recv()` to `Client._read`: `None`
(peer disconnected) or a frame. -/
inductive Inbound where
  | disconnect
  | frame (f : RawFrame)
deriving Repr, Inhabited

/-- The envelopes `Client._read` enqueues while consuming the given inbound
items, for a given per-frame dispatch outcome: on `MessageError` it sends
one `error` envelope whose entity is the description string and keeps
reading; on any other exception it logs and keeps reading; on `None` it
returns. -/
def readSends (δ : RawFrame → DispatchOutcome) : List Inbound → List Envelope
  | [] => []
  | .disconnect :: _ => []
  | .frame f :: rest =>
    match δ f with
    | .ok => readSends δ rest
    | .msgError d => ⟨"error", Json.str d⟩ :: readSends δ rest
    | .exc _ => readSends δ rest

/-- Whether the `Client._read` duty has returned after consuming the given
inbound items: it returns exactly when the peer disconnects
(`recv()` yields `None`); every dispatch outcome leaves it reading. -/
def readEnded (δ : RawFrame → DispatchOutcome) : List Inbound → Bool
  | [] => false
  | .disconnect :: _ => true
  | .frame _ :: rest => readEnded δ rest

/-- `Client._read` on the concrete dispatcher: the enqueued envelopes. -/
def _read (inputs : List Inbound) : List Envelope :=
  readSends dispatchOutcomeOf inputs

mutual

/-- `json.dumps` (external standard library), modelled as a structural JSON
serializer; the claims depend only on messages being serialized envelopes,
not on the exact text. -/
def Json.dumps : Json → String
  | .null => "null"
  | .bool b => if b then "true" else "false"
  | .num n => toString n
  | .str s => "\"" ++ s ++ "\""
  | .arr items => "[" ++ dumpsItems items ++ "]"
  | .obj fields => "\x7b" ++ dumpsFields fields ++ "\x7d"

/-- Serialize the elements of a JSON array. -/
def dumpsItems : List Json → String
  | [] => ""
  | [j] => Json.dumps j
  | j :: rest => Json.dumps j ++ ", " ++ dumpsItems rest

/-- Serialize the fields of a JSON object. -/
def dumpsFields : List (String × Json) → String
  | [] => ""
  | [(k, v)] => "\"" ++ k ++ "\": " ++ Json.dumps v
  | (k, v) :: rest => "\"" ++ k ++ "\": " ++ Json.dumps v ++ ", " ++ dumpsFields rest

end

/-- The JSON object `Client.send` builds:
`{"type": str(type_), "entity": entity}`. -/
def envelopeJson (type_ : String) (entity : Json) : Json :=
  Json.obj [("type", Json.str type_), ("entity", entity)]

/-- `asyncio.Queue.put` on the unbounded send queue: appends one item at the
back; on an unbounded queue it never waits. -/
def queuePut (q : List String) (m : String) : List String :=
  q ++ [m]

/-- `Client.send` from `websocket.py`: serialize the envelope and put it on
the send queue. -/
def send (q : List String) (type_ : String) (entity : Json) : List String :=
  queuePut q (Json.dumps (envelopeJson type_ entity))

/-- A sequence of `Client.send` calls from the same session, applied in call
order to the send queue. -/
def sendAll (q : List String) : List (String × Json) → List String
  | [] => q
  | (t, e) :: rest => sendAll (send q t e) rest

/-- `Client._write` from `websocket.py`: repeatedly take the next queued
message (FIFO front) and write it to the transport.  Applied to the queue
content, it yields the frames written, in order. -/
def _write : List String → List String
  | [] => []
  | m :: rest => m :: _write rest

/-- The state of a freshly constructed `Client`: the connection, the shared
cache handle, no subscriptions, an empty send queue. -/
structure ClientState where
  websocket : Nat
  cache : Nat
  subscriptions : List Address
  send_queue : List String
deriving DecidableEq, Repr

/-- `Client.__init__`: bind the websocket and the cache, start with no
subscriptions and an empty send queue. -/
def clientInit (websocket cache : Nat) : ClientState :=
  { websocket := websocket, cache := cache, subscriptions := [], send_queue := [] }

/-- The observable actions of `Service.__call__` for one accepted
connection. -/
inductive ServiceAction where
  | dropConnection
  | createClient (c : ClientState)
  | processClient (c : ClientState)
deriving DecidableEq, Repr

/-- `Service.PATH`: the single path the service is served from. -/
def Service.PATH : String := "/"

/-- `Service.__call__` from `websocket.py`: if the requested path is not
`Service.PATH`, log and return (dropping the connection, no client
constructed); otherwise construct one `Client` bound to the service's cache
and run `client.process()`. -/
def Service.call (cache : Nat) (websocket : Nat) (path : String) :
    List ServiceAction :=
  if path ≠ Service.PATH then [.dropConnection]
  else
    [.createClient (clientInit websocket cache),
     .processClient (clientInit websocket cache)]

/-- The clients constructed during a list of service actions. -/
def createdClients : List ServiceAction → List ClientState
  | [] => []
  | .createClient c :: rest => c :: createdClients rest
  | .dropConnection :: rest => createdClients rest
  | .processClient _ :: rest => createdClients rest

/-- A concrete dispatcher for exercising the `Client._read` loop: invalid
frames raise a non-`MessageError` exception, JSON frames raise
`MessageError`. -/
def excDispatch : RawFrame → DispatchOutcome
  | .invalid _ => .exc "boom"
  | .json _ => .msgError "bad"

end Websocket

end Serverstf

namespace Serverstf

namespace Poll

theorem interest_iterator_id (q : List Address) :
    _interest_queue_iterator q = q := by
  induction q with
  | nil => simp [_interest_queue_iterator, interestingContext]
  | cons a rest ih => simp [_interest_queue_iterator, interestingContext, ih]

theorem popsOf_append (l1 l2 : List CacheOp) :
    popsOf (l1 ++ l2) = popsOf l1 ++ popsOf l2 := by
  induction l1 with
  | nil => simp [popsOf]
  | cons op rest ih => cases op <;> simp [popsOf, ih]

theorem watchPassOps_pops (assemble : Address → Except PollError Status)
    (r w : Nat) (q : List Address) :
    popsOf (watchPassOps assemble r w q) = q := by
  induction q with
  | nil => simp [watchPassOps, popsOf]
  | cons a rest ih =>
    cases h : assemble a with
    | error e => simp [watchPassOps, h, popsOf, ih]
    | ok s => simp [watchPassOps, h, popsOf, ih]

theorem watchPassOps_sets (assemble : Address → Except PollError Status)
    (r w : Nat) (q : List Address) :
    setsOf (watchPassOps assemble r w q) =
      q.filterMap (fun a => (assemble a).toOption) := by
  induction q with
  | nil => simp [watchPassOps, setsOf]
  | cons a rest ih =>
    cases h : assemble a with
    | error e => simp [watchPassOps, h, setsOf, ih, Except.toOption]
    | ok s => simp [watchPassOps, h, setsOf, ih, Except.toOption]

theorem watchPassOps_set_session (assemble : Address → Except PollError Status)
    (r w : Nat) (q : List Address) (sess : Nat) (s : Status)
    (h : CacheOp.set sess s ∈ watchPassOps assemble r w q) : sess = w := by
  induction q with
  | nil => simp [watchPassOps] at h
  | cons a rest ih =>
    cases ha : assemble a with
    | error e =>
      simp only [watchPassOps, ha, List.mem_cons] at h
      rcases h with h | h
      · exact absurd h (by simp)
      · exact ih h
    | ok s' =>
      simp only [watchPassOps, ha, List.mem_cons] at h
      rcases h with h | h | h
      · exact absurd h (by simp)
      · cases h; rfl
      · exact ih h

theorem watchPassOps_pop_session (assemble : Address → Except PollError Status)
    (r w : Nat) (q : List Address) (sess : Nat) (a : Address)
    (h : CacheOp.pop sess a ∈ watchPassOps assemble r w q) : sess = r := by
  induction q with
  | nil => simp [watchPassOps] at h
  | cons a' rest ih =>
    cases ha : assemble a' with
    | error e =>
      simp only [watchPassOps, ha, List.mem_cons] at h
      rcases h with h | h
      · cases h; rfl
      · exact ih h
    | ok s' =>
      simp only [watchPassOps, ha, List.mem_cons] at h
      rcases h with h | h | h
      · cases h; rfl
      · exact absurd h (by simp)
      · exact ih h

theorem watchPassOps_count_empty (assemble : Address → Except PollError Status)
    (r w : Nat) (q : List Address) :
    (watchPassOps assemble r w q).count (CacheOp.popEmpty r) = 1 := by
  induction q with
  | nil => simp [watchPassOps]
  | cons a rest ih =>
    cases h : assemble a with
    | error e => simp [watchPassOps, h, List.count_cons, ih]
    | ok s => simp [watchPassOps, h, List.count_cons, ih]

end Poll

end Serverstf

open Serverstf Serverstf.Poll Serverstf.Websocket

/-- C1: in the scheduler loop, an address whose assembly fails with
`PollError` causes no cache write and the loop continues with the remaining
addresses; a successful assembly is written; every address drawn is
processed regardless of earlier failures, the writes are exactly the
successful statuses in order, all writes go to the write session and all
queue reads to the read session, and the poller runs `_watch` with two
distinct sessions. -/
theorem claim_C1 :
    (∀ (assemble : Address → Except PollError Status) (r w : Nat)
        (a : Address) (rest : List Address) (e : PollError),
      assemble a = .error e →
        watchPassOps assemble r w (a :: rest) =
          CacheOp.pop r a :: watchPassOps assemble r w rest) ∧
    (∀ (assemble : Address → Except PollError Status) (r w : Nat)
        (a : Address) (rest : List Address) (s : Status),
      assemble a = .ok s →
        watchPassOps assemble r w (a :: rest) =
          CacheOp.pop r a :: CacheOp.set w s ::
            watchPassOps assemble r w rest) ∧
    (∀ (assemble : Address → Except PollError Status) (r w : Nat)
        (q : List Address),
      popsOf (watchPassOps assemble r w q) = q ∧
      setsOf (watchPassOps assemble r w q) =
        q.filterMap (fun a => (assemble a).toOption)) ∧
    (∀ (assemble : Address → Except PollError Status) (r w : Nat)
        (q : List Address) (sess : Nat),
      (∀ s : Status, CacheOp.set sess s ∈ watchPassOps assemble r w q →
        sess = w) ∧
      (∀ a : Address, CacheOp.pop sess a ∈ watchPassOps assemble r w q →
        sess = r)) ∧
    (pollerRSession ≠ pollerWSession ∧
      PollerEvent.watchStart pollerRSession pollerWSession ∈
        (_poller_main (Except.ok ())).2) := by
  refine ⟨?_, ?_, ?_, ?_, ?_, ?_⟩
  · intro assemble r w a rest e h
    simp [watchPassOps, h]
  · intro assemble r w a rest s h
    simp [watchPassOps, h]
  · intro assemble r w q
    exact ⟨watchPassOps_pops assemble r w q, watchPassOps_sets assemble r w q⟩
  · intro assemble r w q sess
    exact ⟨fun s h => watchPassOps_set_session assemble r w q sess s h,
           fun a h => watchPassOps_pop_session assemble r w q sess a h⟩
  · decide
  · simp [Serverstf.Poll._poller_main, pollerRSession, pollerWSession]

/-- C1 witness: a two-address queue where the first address fails and the
second succeeds, with the poller sessions 0 and 1. -/
theorem claim_C1_witness :
    watchPassOps sampleAssemble 0 1 (⟨"a", 1⟩ :: [⟨"b", 2⟩]) =
      CacheOp.pop 0 ⟨"a", 1⟩ :: watchPassOps sampleAssemble 0 1 [⟨"b", 2⟩] ∧
    watchPassOps sampleAssemble 0 1 (⟨"b", 2⟩ :: []) =
      CacheOp.pop 0 ⟨"b", 2⟩ :: CacheOp.set 1 sampleStatus ::
        watchPassOps sampleAssemble 0 1 [] ∧
    popsOf (watchPassOps sampleAssemble 0 1 [⟨"a", 1⟩, ⟨"b", 2⟩]) =
      [⟨"a", 1⟩, ⟨"b", 2⟩] ∧
    setsOf (watchPassOps sampleAssemble 0 1 [⟨"a", 1⟩, ⟨"b", 2⟩]) =
      [sampleStatus] ∧
    pollerRSession ≠ pollerWSession :=
  ⟨claim_C1.1 sampleAssemble 0 1 ⟨"a", 1⟩ [⟨"b", 2⟩] ⟨.unreachable, "down"⟩ rfl,
   claim_C1.2.1 sampleAssemble 0 1 ⟨"b", 2⟩ [] sampleStatus rfl,
   (claim_C1.2.2.1 sampleAssemble 0 1 [⟨"a", 1⟩, ⟨"b", 2⟩]).1,
   by
     have h := (claim_C1.2.2.1 sampleAssemble 0 1 [⟨"a", 1⟩, ⟨"b", 2⟩]).2
     simpa [sampleAssemble, Except.toOption] using h,
   claim_C1.2.2.2.2.1⟩

/-- C5: one drain of the interest queue yields exactly the queued addresses
in queue order (with multiplicity), each drain raises the empty-queue signal
exactly once, and in interest mode the scheduler restarts a fresh drain, so
two consecutive rounds over queue contents `q1` and `q2` pop exactly
`q1 ++ q2`. -/
theorem claim_C5 :
    (∀ q : List Address, _interest_queue_iterator q = q) ∧
    (∀ (assemble : Address → Except PollError Status) (r w : Nat)
        (q : List Address),
      (watchPassOps assemble r w q).count (CacheOp.popEmpty r) = 1) ∧
    (∀ (assemble : Address → Except PollError Status) (r w : Nat)
        (q1 q2 : List Address),
      popsOf (watchRounds assemble r w [q1, q2]) = q1 ++ q2) := by
  refine ⟨interest_iterator_id, watchPassOps_count_empty, ?_⟩
  intro assemble r w q1 q2
  simp [watchRounds, popsOf_append, watchPassOps_pops]

/-- The score-building loop equals filtering out empty names and mapping
each remaining entry to its `(name, score, duration)` triple. -/
theorem scoresOf_eq_filter_map (l : List PlayerEntry) :
    scoresOf l =
      (l.filter (fun e => decide (e.name ≠ ""))).map
        (fun e => (e.name, e.score, (⟨e.duration⟩ : Timedelta))) := by
  induction l with
  | nil => simp [scoresOf]
  | cons e rest ih =>
    by_cases h : e.name = ""
    · simp [scoresOf, h, ih]
    · simp [scoresOf, h, ih]

/-- C2: when all three sub-queries succeed, the assembled status has
`players.scores` equal to the player entries with non-empty names, in
order, each mapped to `(name, score, duration-as-time-span)`, while
`players.current`, `players.max` and `players.bots` come directly from the
info sub-query's `player_count`, `max_players` and `bot_count`. -/
theorem claim_C2 :
    ∀ (tagger : Info → PlayersQuery → Rules → List String)
      (geoip : String → Location) (t : Transport) (a : Address)
      (info : Info) (pq : PlayersQuery) (rules : Rules),
      t.get_info a = .ok info → t.get_players a = .ok pq →
      t.get_rules a = .ok rules →
      ∃ st : Status, (poll tagger geoip t a).2 = .ok st ∧
        st.players.scores =
          (pq.players.filter (fun e => decide (e.name ≠ ""))).map
            (fun e => (e.name, e.score, (⟨e.duration⟩ : Timedelta))) ∧
        st.players.current = info.player_count ∧
        st.players.max_ = info.max_players ∧
        st.players.bots = info.bot_count := by
  intro tagger geoip t a info pq rules hi hp hr
  simp only [poll, _query_server, hi, hp, hr]
  exact ⟨_, rfl, scoresOf_eq_filter_map pq.players, rfl, rfl, rfl⟩

/-- C2 witness: the end-to-end scenario with one player named Bob, score 5,
duration 90 seconds, yields scores `[(Bob, 5, 90s)]` and `current` equal to
the info sub-query's player count of 1. -/
theorem claim_C2_witness :
    ∃ st : Status,
      (poll sampleTagger sampleGeoip bobTransport bobAddr).2 = .ok st ∧
      st.players.scores = [("Bob", 5, (⟨90⟩ : Timedelta))] ∧
      st.players.current = 1 ∧
      st.players.max_ = 24 ∧
      st.players.bots = 0 :=
  claim_C2 sampleTagger sampleGeoip bobTransport bobAddr bobInfo bobPlayers
    bobRules rfl rfl rfl

/-- C4: `_query_server` fails with `PollError` exactly when one of its three
sub-queries fails; a timeout maps to the unreachable kind, an unsupported
compressed-fragment encoding to the unsupported kind, and a broken response
to the broken-response kind; on success exactly three sub-queries (info,
players, rules) are issued against the address with timeout 5, and tag
evaluation and geolocation run only after all three succeed. -/
theorem claim_C4 :
    (∀ (t : Transport) (a : Address),
      (∃ pe, (_query_server t a).2 = .error pe) ↔
        ((∃ e, t.get_info a = .error e) ∨
         (∃ e, t.get_players a = .error e) ∨
         (∃ e, t.get_rules a = .error e))) ∧
    (∀ (t : Transport) (a : Address) (e : QueryError),
      t.get_info a = .error e →
        (_query_server t a).2 = .error (pollErrorOf e a)) ∧
    (∀ (t : Transport) (a : Address) (i : Info) (e : QueryError),
      t.get_info a = .ok i → t.get_players a = .error e →
        (_query_server t a).2 = .error (pollErrorOf e a)) ∧
    (∀ (t : Transport) (a : Address) (i : Info) (p : PlayersQuery)
        (e : QueryError),
      t.get_info a = .ok i → t.get_players a = .ok p →
        t.get_rules a = .error e →
        (_query_server t a).2 = .error (pollErrorOf e a)) ∧
    (∀ a : Address,
      (pollErrorOf .noResponse a).kind = .unreachable ∧
      (pollErrorOf .notImplemented a).kind = .unsupported ∧
      (pollErrorOf .brokenMessage a).kind = .brokenResponse) ∧
    (∀ (t : Transport) (a : Address) (i : Info) (p : PlayersQuery)
        (ru : Rules),
      t.get_info a = .ok i → t.get_players a = .ok p →
        t.get_rules a = .ok ru →
        (_query_server t a).1 =
          [⟨.info, a, 5⟩, ⟨.players, a, 5⟩, ⟨.rules, a, 5⟩]) ∧
    (∀ (tagger : Info → PlayersQuery → Rules → List String)
        (geoip : String → Location) (t : Transport) (a : Address)
        (i : Info) (p : PlayersQuery) (ru : Rules),
      t.get_info a = .ok i → t.get_players a = .ok p →
        t.get_rules a = .ok ru →
        (poll tagger geoip t a).1 =
          [.subquery ⟨.info, a, 5⟩, .subquery ⟨.players, a, 5⟩,
           .subquery ⟨.rules, a, 5⟩, .tagEval, .geoLookup a.ip]) ∧
    (∀ (tagger : Info → PlayersQuery → Rules → List String)
        (geoip : String → Location) (t : Transport) (a : Address)
        (pe : PollError),
      (poll tagger geoip t a).2 = .error pe →
        PollEvent.tagEval ∉ (poll tagger geoip t a).1 ∧
        ∀ ip, PollEvent.geoLookup ip ∉ (poll tagger geoip t a).1) := by
  refine ⟨?_, ?_, ?_, ?_, ?_, ?_, ?_, ?_⟩
  · intro t a
    cases hi : t.get_info a with
    | error e => simp [_query_server, hi]
    | ok i =>
      cases hp : t.get_players a with
      | error e => simp [_query_server, hi, hp]
      | ok p =>
        cases hr : t.get_rules a with
        | error e => simp [_query_server, hi, hp, hr]
        | ok ru => simp [_query_server, hi, hp, hr]
  · intro t a e h
    simp [_query_server, h]
  · intro t a i e hi hp
    simp [_query_server, hi, hp]
  · intro t a i p e hi hp hr
    simp [_query_server, hi, hp, hr]
  · intro a
    exact ⟨rfl, rfl, rfl⟩
  · intro t a i p ru hi hp hr
    simp [_query_server, hi, hp, hr]
  · intro tagger geoip t a i p ru hi hp hr
    simp [poll, _query_server, hi, hp, hr]
  · intro tagger geoip t a pe h
    cases hi : t.get_info a with
    | error e => simp [poll, _query_server, hi]
    | ok i =>
      cases hp : t.get_players a with
      | error e => simp [poll, _query_server, hi, hp]
      | ok p =>
        cases hr : t.get_rules a with
        | error e => simp [poll, _query_server, hi, hp, hr]
        | ok ru => simp [poll, _query_server, hi, hp, hr] at h

/-- C4 witness: a transport that times out on the info sub-query yields the
unreachable poll error and no tag evaluation, and the all-success transport
issues exactly the three sub-queries with timeout 5 before tagging and
geolocation. -/
theorem claim_C4_witness :
    (_query_server timeoutTransport bobAddr).2 =
      .error (pollErrorOf .noResponse bobAddr) ∧
    (pollErrorOf .noResponse bobAddr).kind = .unreachable ∧
    (_query_server bobTransport bobAddr).1 =
      [⟨.info, bobAddr, 5⟩, ⟨.players, bobAddr, 5⟩, ⟨.rules, bobAddr, 5⟩] ∧
    (poll sampleTagger sampleGeoip bobTransport bobAddr).1 =
      [.subquery ⟨.info, bobAddr, 5⟩, .subquery ⟨.players, bobAddr, 5⟩,
       .subquery ⟨.rules, bobAddr, 5⟩, .tagEval, .geoLookup bobAddr.ip] ∧
    PollEvent.tagEval ∉
      (poll sampleTagger sampleGeoip timeoutTransport bobAddr).1 :=
  ⟨claim_C4.2.1 timeoutTransport bobAddr .noResponse rfl,
   (claim_C4.2.2.2.2.1 bobAddr).1,
   claim_C4.2.2.2.2.2.1 bobTransport bobAddr bobInfo bobPlayers bobRules
     rfl rfl rfl,
   claim_C4.2.2.2.2.2.2.1 sampleTagger sampleGeoip bobTransport bobAddr
     bobInfo bobPlayers bobRules rfl rfl rfl,
   (claim_C4.2.2.2.2.2.2.2 sampleTagger sampleGeoip timeoutTransport bobAddr
     (pollErrorOf .noResponse bobAddr) rfl).1⟩

/-- C5 witness: the queue `[a, a, b]` of the specification scenario drains
to exactly `[a, a, b]`, and a second round over a repopulated queue `[b]`
pops `[a, a, b, b]`. -/
theorem claim_C5_witness :
    _interest_queue_iterator
      [(⟨"a", 1⟩ : Address), ⟨"a", 1⟩, ⟨"b", 2⟩] =
      [(⟨"a", 1⟩ : Address), ⟨"a", 1⟩, ⟨"b", 2⟩] ∧
    (watchPassOps sampleAssemble 0 1
        [(⟨"a", 1⟩ : Address), ⟨"a", 1⟩, ⟨"b", 2⟩]).count
      (CacheOp.popEmpty 0) = 1 ∧
    popsOf (watchRounds sampleAssemble 0 1
        [[(⟨"a", 1⟩ : Address), ⟨"a", 1⟩, ⟨"b", 2⟩], [⟨"b", 2⟩]]) =
      [(⟨"a", 1⟩ : Address), ⟨"a", 1⟩, ⟨"b", 2⟩, ⟨"b", 2⟩] :=
  ⟨claim_C5.1 _,
   claim_C5.2.1 sampleAssemble 0 1 _,
   claim_C5.2.2 sampleAssemble 0 1 _ _⟩

/-- C8: the code path taken when opening the GeoIP database raises
`InvalidDatabaseError`.  The `except` clause raises `FatalError`, but the
`finally` clause then evaluates `geoip.close()` with the local `geoip`
never having been bound, so a `NameError` replaces the `FatalError` and the
process boundary sees an unexpected error (exit status 2), not the fatal
exit status 1 that the claim and the function's own docstring
(`:raises serverstf.FatalError:`) promise.  No cache connection is opened
before the failure propagates, and a `FatalError` would indeed have mapped
to the distinct fatal exit status. -/
theorem claim_C8 :
    (_poller_main (Except.error "invalid database")).1 =
      .error (.nameError "geoip") ∧
    mainExitStatusOf (_poller_main (Except.error "invalid database")).1 =
      .UNEXPECTED_ERROR ∧
    (_poller_main (Except.error "invalid database")).2 =
      [PollerEvent.loadGeoip] ∧
    ExitStatus.FATAL_ERROR.toNat = 1 ∧
    mainExitStatusOf (.error (.fatalError "invalid database")) =
      .FATAL_ERROR :=
  ⟨rfl, rfl, rfl, rfl, rfl⟩

/-- If the envelope validation fails, `_dispatch` raises that
`MessageError`. -/
theorem dispatch_of_envelope_error (j : Json) (me : MessageError)
    (h : envelopeCheck j = .error me) :
    _dispatch (RawFrame.json j) = .error me := by
  simp [_dispatch, h]

/-- An envelope object missing the `type` or the `entity` key fails the
envelope validation. -/
theorem envelopeCheck_missing (fields : List (String × Json))
    (h : fields.lookup "type" = none ∨ fields.lookup "entity" = none) :
    ∃ d, envelopeCheck (Json.obj fields) = .error ⟨d⟩ := by
  cases hall : fields.all (fun kv => kv.1 = "type" ∨ kv.1 = "entity") with
  | false =>
    refine ⟨"Envelope: extra keys not allowed", ?_⟩
    simp only [envelopeCheck]
    rw [hall]
    rfl
  | true =>
    refine ⟨"Envelope: required key not provided", ?_⟩
    simp only [envelopeCheck]
    rw [hall, if_pos rfl]
    rcases h with h | h
    · rw [h]
    · rw [h]
      cases ht : fields.lookup "type" with
      | none => rfl
      | some t => cases t <;> rfl

/-- C3: whenever `_dispatch` raises `MessageError`, the read duty sends
exactly one `error` envelope whose entity is the description string and
keeps reading, so a later frame is still processed; and each of the four
bad-frame categories — not valid JSON, envelope missing a required field,
unregistered message type, entity failing the subscribe handler's
validation — makes `_dispatch` raise `MessageError`. -/
theorem claim_C3 :
    (∀ (d : String) (f : RawFrame) (rest : List Inbound),
      _dispatch f = .error ⟨d⟩ →
        _read (Inbound.frame f :: rest) =
          ⟨"error", Json.str d⟩ :: _read rest ∧
        readEnded dispatchOutcomeOf (Inbound.frame f :: rest) =
          readEnded dispatchOutcomeOf rest) ∧
    (∀ text : String, ∃ d, _dispatch (RawFrame.invalid text) = .error ⟨d⟩) ∧
    (∀ fields : List (String × Json),
      fields.lookup "type" = none ∨ fields.lookup "entity" = none →
        ∃ d, _dispatch (RawFrame.json (Json.obj fields)) = .error ⟨d⟩) ∧
    (∀ (t : String) (e : Json), t ≠ "subscribe" →
        _dispatch (RawFrame.json
            (Json.obj [("type", Json.str t), ("entity", e)])) =
          .error ⟨"Unknown message type: " ++ t⟩) ∧
    (∀ (e : Json) (me : MessageError), address e = .error me →
        _dispatch (RawFrame.json
            (Json.obj [("type", Json.str "subscribe"), ("entity", e)])) =
          .error me) := by
  refine ⟨?_, ?_, ?_, ?_, ?_⟩
  · intro d f rest h
    constructor
    · simp [_read, readSends, dispatchOutcomeOf, h]
    · simp [readEnded]
  · intro text
    exact ⟨"JSON: " ++ text, rfl⟩
  · intro fields h
    obtain ⟨d, hd⟩ := envelopeCheck_missing fields h
    exact ⟨d, dispatch_of_envelope_error _ _ hd⟩
  · intro t e h
    have henv :
        envelopeCheck (Json.obj [("type", Json.str t), ("entity", e)]) =
          .ok (t, e) := rfl
    simp [_dispatch, henv, h]
  · intro e me h
    have henv :
        envelopeCheck
            (Json.obj [("type", Json.str "subscribe"), ("entity", e)]) =
          .ok ("subscribe", e) := rfl
    simp [_dispatch, henv, _handle_subscribe, h]

/-- C3 witness: a non-JSON frame, an envelope missing `entity`, an unknown
type and a non-dictionary subscribe entity each draw exactly one `error`
envelope, and a well-formed subscribe frame after the bad one is still
dispatched. -/
theorem claim_C3_witness :
    (_read [Inbound.frame (RawFrame.invalid "nope"),
            Inbound.frame (RawFrame.json (Json.obj
              [("type", Json.str "subscribe"),
               ("entity", Json.obj [("ip", Json.str "1.2.3.4"),
                                    ("port", Json.num 27015)])]))] =
      ⟨"error", Json.str ("JSON: " ++ "nope")⟩ ::
        _read [Inbound.frame (RawFrame.json (Json.obj
          [("type", Json.str "subscribe"),
           ("entity", Json.obj [("ip", Json.str "1.2.3.4"),
                                ("port", Json.num 27015)])]))]) ∧
    (∃ d, _dispatch (RawFrame.json
        (Json.obj [("type", Json.str "subscribe")])) = .error ⟨d⟩) ∧
    _dispatch (RawFrame.json
        (Json.obj [("type", Json.str "nope"), ("entity", Json.null)])) =
      .error ⟨"Unknown message type: " ++ "nope"⟩ ∧
    _dispatch (RawFrame.json
        (Json.obj [("type", Json.str "subscribe"),
                   ("entity", Json.null)])) =
      .error ⟨"Entity: expected a dictionary"⟩ :=
  ⟨(claim_C3.1 ("JSON: " ++ "nope") (RawFrame.invalid "nope") _ rfl).1,
   claim_C3.2.2.1 [("type", Json.str "subscribe")] (Or.inr rfl),
   claim_C3.2.2.2.1 "nope" Json.null (by decide),
   claim_C3.2.2.2.2 Json.null ⟨"Entity: expected a dictionary"⟩ rfl⟩

/-- C6 (amended): when dispatching one inbound message raises an exception
other than `MessageError`, `Client._read` logs it and keeps going: no
envelope is sent for that frame, the read duty does not return, and the
remaining inbound messages are processed as before. -/
theorem claim_C6 :
    ∀ (δ : RawFrame → DispatchOutcome) (f : RawFrame) (s : String)
      (rest : List Inbound),
      δ f = .exc s →
        readSends δ (Inbound.frame f :: rest) = readSends δ rest ∧
        readEnded δ (Inbound.frame f :: rest) = readEnded δ rest := by
  intro δ f s rest h
  constructor
  · simp [readSends, h]
  · simp [readEnded]

/-- C6 counterexample: a dispatcher that raises a non-`MessageError`
exception on the first frame does not end the read duty — the duty is still
reading afterwards and a later frame is still dispatched (its `error`
envelope is sent), so the session is not torn down as the claim states. -/
theorem claim_C6_counterexample :
    excDispatch (RawFrame.invalid "x") = .exc "boom" ∧
    readEnded excDispatch [Inbound.frame (RawFrame.invalid "x")] = false ∧
    readSends excDispatch
      [Inbound.frame (RawFrame.invalid "x"),
       Inbound.frame (RawFrame.json Json.null)] =
      [⟨"error", Json.str "bad"⟩] :=
  ⟨rfl, rfl, rfl⟩

/-- C6 witness: the amended claim at the concrete dispatcher whose invalid
frames raise a non-`MessageError` exception. -/
theorem claim_C6_witness :
    readSends excDispatch [Inbound.frame (RawFrame.invalid "x")] =
      readSends excDispatch [] ∧
    readEnded excDispatch [Inbound.frame (RawFrame.invalid "x")] =
      readEnded excDispatch [] :=
  claim_C6 excDispatch (RawFrame.invalid "x") "boom" [] rfl

/-- A sequence of sends appends exactly the serialized envelopes, in call
order. -/
theorem sendAll_eq (calls : List (String × Json)) (q : List String) :
    sendAll q calls =
      q ++ calls.map (fun c => Json.dumps (envelopeJson c.1 c.2)) := by
  induction calls generalizing q with
  | nil => simp [sendAll]
  | cons c rest ih =>
    cases c with
    | mk t e => simp [sendAll, send, queuePut, ih]

/-- C7: `send` only appends the serialized envelope at the back of the
delivery queue, the write-flush duty writes the queue to the transport
front-first, and so the frames written for any sequence of `send` calls are
exactly the serialized envelopes in call order, after whatever was already
queued. -/
theorem claim_C7 :
    (∀ (q : List String) (t : String) (e : Json),
      send q t e = q ++ [Json.dumps (envelopeJson t e)]) ∧
    (∀ q : List String, _write q = q) ∧
    (∀ (calls : List (String × Json)) (q0 : List String),
      _write (sendAll q0 calls) =
        _write q0 ++ calls.map (fun c => Json.dumps (envelopeJson c.1 c.2))) := by
  have hw : ∀ q : List String, _write q = q := by
    intro q
    induction q with
    | nil => rfl
    | cons m rest ih => simp [_write, ih]
  refine ⟨?_, hw, ?_⟩
  · intro q t e
    rfl
  · intro calls q0
    rw [hw, hw, sendAll_eq]

/-- C9: the acceptor rejects a connection on any path other than the single
expected path by dropping it without constructing a client, and on the
expected path it constructs exactly one fresh client bound to the shared
cache handle and runs it. -/
theorem claim_C9 :
    (∀ (cache ws : Nat) (path : String), path ≠ Service.PATH →
      Service.call cache ws path = [ServiceAction.dropConnection] ∧
      createdClients (Service.call cache ws path) = []) ∧
    (∀ cache ws : Nat,
      Service.call cache ws Service.PATH =
        [ServiceAction.createClient (clientInit ws cache),
         ServiceAction.processClient (clientInit ws cache)] ∧
      createdClients (Service.call cache ws Service.PATH) =
        [clientInit ws cache] ∧
      (clientInit ws cache).cache = cache) := by
  constructor
  · intro cache ws path h
    constructor <;> simp [Service.call, h, createdClients]
  · intro cache ws
    refine ⟨?_, ?_, rfl⟩ <;> simp [Service.call, createdClients]

/-- C9 witness: a mismatched path is dropped with no client; the expected
path creates and runs one client bound to the shared cache. -/
theorem claim_C9_witness :
    Service.call 7 3 "/other" = [ServiceAction.dropConnection] ∧
    createdClients (Service.call 7 3 "/other") = [] ∧
    Service.call 7 3 Service.PATH =
      [ServiceAction.createClient (clientInit 3 7),
       ServiceAction.processClient (clientInit 3 7)] :=
  ⟨(claim_C9.1 7 3 "/other" (by decide)).1,
   (claim_C9.1 7 3 "/other" (by decide)).2,
   (claim_C9.2 7 3).1⟩

/-- C10: the subscribe-entity converter passes the validated dictionary's
values to the `Address` constructor positionally, in input key order: when
the keys arrive as `ip` then `port` the first constructor argument is the
ip value, but when they arrive as `port` then `ip` the first constructor
argument (the ip slot) receives the port value — so the accepted entity
shape alone does not fix which field becomes the IP. -/
theorem claim_C10 :
    (∀ (s : String) (p : Int),
      address (Json.obj [("ip", Json.str s), ("port", Json.num p)]) =
        .ok ⟨Json.str s, Json.num p⟩) ∧
    (∀ (s : String) (p : Int),
      address (Json.obj [("port", Json.num p), ("ip", Json.str s)]) =
        .ok ⟨Json.num p, Json.str s⟩) := by
  constructor <;> intro s p <;> rfl
